import Mathlib

/-!
Verification development for the Google Maps scraper core.

The Python sources under `google_maps_scraper/` are embedded as executable
Lean definitions.  Pure field parsers are translated directly.  The effectful
orchestration code (the auto-scroll loop of `SmartScrollManager`, the phase-2
card loop and retry driver of `OptimizedGoogleMapsScraper`) is modelled by
explicit state passing, with browser/DOM behaviour supplied as input data:
card counts per scroll round, per-attempt outcomes, and per-card detail-pane
observations.  Numeric values parsed by Python `float`/`int` are modelled as
exact rationals (`ℚ`); the decimal fragments accepted by the regexes in
`config.py` parse exactly, so no floating-point rounding is modelled.
-/

namespace GmScraper

/-- Python `str.strip()`: drop whitespace from both ends. -/
def pyStrip (s : String) : String :=
  ⟨((s.data.dropWhile Char.isWhitespace).reverse.dropWhile Char.isWhitespace).reverse⟩

/-- Python `str.lower()` (character-wise lowering). -/
def pyLower (s : String) : String :=
  ⟨s.data.map Char.toLower⟩

/-- Boolean list-prefix test. -/
def isPrefixList : List Char → List Char → Bool
  | [], _ => true
  | _ :: _, [] => false
  | a :: as, b :: bs => a == b && isPrefixList as bs

/-- Boolean substring test on character lists (Python `pat in s`). -/
def hasSubstr (pat : List Char) : List Char → Bool
  | [] => pat.isEmpty
  | c :: rest => isPrefixList pat (c :: rest) || hasSubstr pat rest

/-- Python `pat in s` on strings. -/
def strIn (pat s : String) : Bool :=
  hasSubstr pat.data s.data

/-- Python `s.startswith(pre)`. -/
def strStartsWith (s pre : String) : Bool :=
  isPrefixList pre.data s.data

/-- Python `s[n:]`. -/
def strDrop (s : String) (n : Nat) : String :=
  ⟨s.data.drop n⟩

/-- True when the string contains a decimal digit (Python `re.search(r'\d', s)`). -/
def hasDigitStr (s : String) : Bool :=
  s.data.any Char.isDigit

/-- Python truthiness of an optional string: `None` and `""` are falsy. -/
def optTruthy : Option String → Bool
  | none => false
  | some s => s != ""

/-- Split a character list into its leading digit run and the remainder. -/
def takeDigits : List Char → List Char × List Char
  | [] => ([], [])
  | c :: cs =>
    if c.isDigit then
      let p := takeDigits cs
      (c :: p.1, p.2)
    else ([], c :: cs)

/-- Value of a digit run read in base 10. -/
def digitsToNat (ds : List Char) : Nat :=
  ds.foldl (fun a c => 10 * a + (c.toNat - 48)) 0

/-- Exact rational value of an integer part and a fractional digit run
(built with `mkRat` so that concrete instances reduce in the kernel). -/
def decimalVal (ip fp : List Char) : ℚ :=
  mkRat (digitsToNat ip * 10 ^ fp.length + digitsToNat fp) (10 ^ fp.length)

/-- Match the regex fragment `\d+\.?\d*` at the head of the input (greedy, as in
`re`; the contexts where `config.py` uses it are never followed by a digit or a
dot, so greedy matching coincides with backtracking search).  Returns the value
and the unconsumed remainder. -/
def matchUDecimal (cs : List Char) : Option (ℚ × List Char) :=
  let p := takeDigits cs
  if p.1 = [] then none
  else
    match p.2 with
    | '.' :: r =>
      let q := takeDigits r
      some (decimalVal p.1 q.1, q.2)
    | rest => some (decimalVal p.1 [], rest)

/-- Match the regex fragment `-?\d+\.?\d*` at the head of the input. -/
def matchSDecimal (cs : List Char) : Option (ℚ × List Char) :=
  match cs with
  | '-' :: r => (matchUDecimal r).map (fun p => (-p.1, p.2))
  | _ => matchUDecimal cs

/-- Match a literal character sequence at the head of the input. -/
def matchLit : List Char → List Char → Option (List Char)
  | [], cs => some cs
  | _ :: _, [] => none
  | l :: ls, c :: cs => if c == l then matchLit ls cs else none

/-- Leftmost match: try a position matcher at every suffix, as `re.search`. -/
def searchPat {α : Type} (f : List Char → Option α) : List Char → Option α
  | [] => f []
  | c :: rest =>
    match f (c :: rest) with
    | some r => some r
    | none => searchPat f rest

/-- Match `config.patterns["coordinates_3d4d"]`, i.e.
`!3d(-?\d+\.?\d*)!4d(-?\d+\.?\d*)`, at the head of the input. -/
def match3d4dAt (cs : List Char) : Option (ℚ × ℚ) :=
  match matchLit "!3d".data cs with
  | none => none
  | some cs1 =>
    match matchSDecimal cs1 with
    | none => none
    | some (lat, cs2) =>
      match matchLit "!4d".data cs2 with
      | none => none
      | some cs3 =>
        match matchSDecimal cs3 with
        | none => none
        | some (lng, _) => some (lat, lng)

/-- Match `config.patterns["coordinates_at"]`, i.e.
`@(-?\d+\.?\d*),(-?\d+\.?\d*),`, at the head of the input. -/
def matchAtPairAt (cs : List Char) : Option (ℚ × ℚ) :=
  match matchLit "@".data cs with
  | none => none
  | some cs1 =>
    match matchSDecimal cs1 with
    | none => none
    | some (lat, cs2) =>
      match matchLit ",".data cs2 with
      | none => none
      | some cs3 =>
        match matchSDecimal cs3 with
        | none => none
        | some (lng, cs4) =>
          match matchLit ",".data cs4 with
          | none => none
          | some _ => some (lat, lng)

/-- First capture of `config.patterns["rating_value"]`, i.e. `(\d+\.?\d*)`,
at the head of the input. -/
def matchRatingAt (cs : List Char) : Option ℚ :=
  (matchUDecimal cs).map Prod.fst

/-- Python `float(s)` on the plain decimal literals that occur here: optional
surrounding whitespace, optional sign, digits with optional fractional part
("1", "1.5", "1.", ".5").  Exponents, underscores, `inf` and `nan` are outside
the modelled fragment. -/
def pyFloat (s : String) : Option ℚ :=
  let cs := (pyStrip s).data
  let sp : Bool × List Char :=
    match cs with
    | '-' :: r => (true, r)
    | '+' :: r => (false, r)
    | _ => (false, cs)
  let signed : ℚ → ℚ := fun v => if sp.1 then -v else v
  match sp.2 with
  | '.' :: r =>
    let q := takeDigits r
    if q.1 = [] ∨ q.2 ≠ [] then none
    else some (signed (decimalVal [] q.1))
  | cs1 =>
    let p := takeDigits cs1
    if p.1 = [] then none
    else
      match p.2 with
      | [] => some (signed (decimalVal p.1 []))
      | '.' :: r =>
        let q := takeDigits r
        if q.2 = [] then some (signed (decimalVal p.1 q.1)) else none
      | _ => none

/-- `OptimizedDataExtractor._parse_rating_value`: first regex match, converted
to a number and accepted only in `[0, 5]`. -/
def parse_rating_value (rating_text : String) : Option ℚ :=
  if rating_text = "" then none
  else
    match searchPat matchRatingAt rating_text.data with
    | some rating => if 0 ≤ rating ∧ rating ≤ 5 then some rating else none
    | none => none

/-- `_validate_coordinates` (identical in `data_extractor.py` and
`google_maps_scraper.py`): `-90 <= lat <= 90 and -180 <= lng <= 180`. -/
def validate_coordinates (lat lng : ℚ) : Bool :=
  decide (-90 ≤ lat ∧ lat ≤ 90 ∧ -180 ≤ lng ∧ lng ≤ 180)

/-- Second half of `_extract_coordinates_from_url`: try the `@lat,lng,`
pattern on the url and validate. -/
def coordsFromAt (url : String) : Option (ℚ × ℚ) :=
  match searchPat matchAtPairAt url.data with
  | some p => if validate_coordinates p.1 p.2 then some p else none
  | none => none

/-- `OptimizedGoogleMapsScraper._extract_coordinates_from_url`: try pattern
`!3d..!4d..` then pattern `@..,..,`; return the first pair that validates,
else nothing (the Python `(None, None)`). -/
def extract_coordinates_from_url (url : String) : Option (ℚ × ℚ) :=
  match searchPat match3d4dAt url.data with
  | some (lat, lng) =>
    if validate_coordinates lat lng then some (lat, lng) else coordsFromAt url
  | none => coordsFromAt url

/-- One link's contribution in `OptimizedDataExtractor._extract_coordinates`:
if the href looks maps-related, try pattern 1 then pattern 2, validated. -/
def coordsFromLink (href : String) : Option (ℚ × ℚ) :=
  if strIn "google.com/maps" href || strIn "maps" href then
    match searchPat match3d4dAt href.data with
    | some p =>
      if validate_coordinates p.1 p.2 then some p
      else
        match searchPat matchAtPairAt href.data with
        | some q => if validate_coordinates q.1 q.2 then some q else none
        | none => none
    | none =>
      match searchPat matchAtPairAt href.data with
      | some q => if validate_coordinates q.1 q.2 then some q else none
      | none => none
  else none

/-- `OptimizedDataExtractor._extract_coordinates`: scan the page's hrefs in
order and return the first validated coordinate pair. -/
def extract_coordinates (links : List String) : Option (ℚ × ℚ) :=
  match links with
  | [] => none
  | h :: rest =>
    match coordsFromLink h with
    | some p => some p
    | none => extract_coordinates rest

/-- Python phone cleaning `re.sub(r'[^\d\+]', '', phone)` in
`_is_valid_phone`: keep digits and every plus sign. -/
def cleanPhone (phone : String) : List Char :=
  phone.data.filter (fun c => c.isDigit || c == '+')

/-- `OptimizedDataExtractor._is_valid_phone`: regional length/prefix
heuristics over the cleaned digits-and-plus form. -/
def is_valid_phone (phone : String) : Bool :=
  if phone = "" then false
  else
    let digits := cleanPhone phone
    if isPrefixList "+92".data digits then decide (12 ≤ digits.length)
    else if isPrefixList "92".data digits then decide (11 ≤ digits.length)
    else if isPrefixList "03".data digits then decide (digits.length = 11)
    else if isPrefixList "042".data digits then decide (10 ≤ digits.length)
    else decide (10 ≤ digits.length ∧ digits.length ≤ 15)

/-- `OptimizedDataExtractor._format_phone`; the `phonenumbers` library is an
external capability supplied as an oracle `fmt` that may fail, with the
source's fallback `phone.strip()`. -/
def format_phone (fmt : String → Option String) (phone : String) : String :=
  match fmt phone with
  | some s => s
  | none => pyStrip phone

/-- One element reached by a phone selector in `_extract_detail_phone`:
its `href` attribute and its inner text (each possibly absent). -/
structure PhoneElem where
  href : Option String
  text : Option String

/-- Per-element body of `_extract_detail_phone`: a `tel:` href whose payload
validates wins, otherwise a validating inner text. -/
def phoneFromElem (fmt : String → Option String) (e : PhoneElem) : Option String :=
  let fromHref : Option String :=
    match e.href with
    | some h =>
      if strStartsWith h "tel:" && is_valid_phone (strDrop h 4) then
        some (format_phone fmt (strDrop h 4))
      else none
    | none => none
  match fromHref with
  | some r => some r
  | none =>
    match e.text with
    | some t => if t != "" && is_valid_phone t then some (format_phone fmt t) else none
    | none => none

/-- First phone produced by the elements of one selector group. -/
def firstPhone (fmt : String → Option String) : List PhoneElem → Option String
  | [] => none
  | e :: rest =>
    match phoneFromElem fmt e with
    | some r => some r
    | none => firstPhone fmt rest

/-- `OptimizedDataExtractor._extract_detail_phone`: walk the selector groups
(`[href^='tel:']`, `.fontBodyMedium a[href^='tel:']`, `.fontBodyMedium`) in
order and return the first validated, formatted phone, else `""`. -/
def extract_detail_phone (fmt : String → Option String) :
    List (List PhoneElem) → String
  | [] => ""
  | g :: rest =>
    match firstPhone fmt g with
    | some r => r
    | none => extract_detail_phone fmt rest

/-- The keyword→category table of `OptimizedGoogleMapsScraper._infer_category`
(insertion order, which Python `dict` iteration preserves). -/
def category_mappings : List (String × String) :=
  [("car rental", "Car Rental Agency"),
   ("rent a car", "Car Rental Agency"),
   ("restaurant", "Restaurant"),
   ("hotel", "Hotel"),
   ("pharmacy", "Pharmacy"),
   ("hospital", "Hospital"),
   ("clinic", "Medical Clinic"),
   ("diagnostic center", "Diagnostic Center"),
   ("bank", "Bank"),
   ("gas station", "Gas Station"),
   ("grocery", "Grocery Store")]

/-- First-matching-keyword lookup of `_infer_category`. -/
def inferGo : List (String × String) → String → String
  | [], _ => "Business"
  | kv :: rest, s => if strIn kv.1 s then kv.2 else inferGo rest s

/-- `OptimizedGoogleMapsScraper._infer_category`: case-insensitive substring
match of the keywords against the search term; default `"Business"`. -/
def infer_category (search_term : String) : String :=
  inferGo category_mappings (pyLower search_term)

/-- `OptimizedGoogleMapsScraper._safe_extract_text`: the browser observation
is an optional raw `inner_text`; a found, truthy text is stripped, anything
else yields `None`. -/
def safe_extract_text (raw : Option String) : Option String :=
  match raw with
  | none => none
  | some t => if t = "" then none else some (pyStrip t)

/-- Observations of one open detail pane as read by
`_extract_from_detail_pane_precise`: each field holds the raw text behind the
corresponding selector (`none` when the element is missing or the read
fails), plus the page url used for coordinate extraction. -/
structure DetailPane where
  hasRoot : Bool
  nameRaw : Option String
  categoryRaw : Option String
  hasRatingBlock : Bool
  ratingRaw : Option String
  reviewsRaw : Option String
  infoRaw : List (Option String)
  url : String

/-- The business dict assembled by the scraper; keys a path does not set are
`none`. -/
structure BusinessDict where
  name : Option String := none
  category : Option String := none
  rating : Option ℚ := none
  review_count : Option Nat := none
  address : Option String := none
  phone : Option String := none
  website : Option String := none
  raw_info_elements : List String := []
  latitude : Option ℚ := none
  longitude : Option ℚ := none
  error : Option String := none
  deriving DecidableEq

/-- One step of the info-text classification loop of
`_extract_from_detail_pane_precise`: address (comma and a digit), then phone
(leading `+` and a digit), then website (a dot, no space, no leading `+`,
`https://` prepended when no scheme is present); each slot is filled once. -/
def classifyStep (acc : Option String × Option String × Option String)
    (text : String) : Option String × Option String × Option String :=
  if acc.1.isNone && strIn "," text && hasDigitStr text then
    (some text, acc.2.1, acc.2.2)
  else if acc.2.1.isNone && strStartsWith text "+" && hasDigitStr text then
    (acc.1, some text, acc.2.2)
  else if acc.2.2.isNone && strIn "." text && !strIn " " text &&
      !strStartsWith text "+" then
    let t :=
      if strStartsWith text "http://" || strStartsWith text "https://" then text
      else "https://" ++ text
    (acc.1, acc.2.1, some t)
  else acc

/-- The full classification fold over the info texts. -/
def classifyInfo (texts : List String) :
    Option String × Option String × Option String :=
  texts.foldl classifyStep (none, none, none)

/-- The stripped, non-empty info texts (`info_texts` in the source); a failed
element read is skipped. -/
def infoTextsOf (p : DetailPane) : List String :=
  p.infoRaw.filterMap (fun o =>
    match o with
    | some t => if t != "" && pyStrip t != "" then some (pyStrip t) else none
    | none => none)

/-- `OptimizedGoogleMapsScraper._extract_from_detail_pane_precise`. -/
def extract_from_detail_pane_precise (p : DetailPane) (search_term : String) :
    BusinessDict :=
  if !p.hasRoot then { error := some "No detail pane root found" }
  else
    let name := safe_extract_text p.nameRaw
    if !optTruthy name then { error := some "No business name found in detail pane" }
    else
      let category := safe_extract_text p.categoryRaw
      let ratingText := safe_extract_text p.ratingRaw
      let rating :=
        if p.hasRatingBlock && optTruthy ratingText then pyFloat (ratingText.getD "")
        else none
      let reviewsText := safe_extract_text p.reviewsRaw
      let review_count :=
        if p.hasRatingBlock && optTruthy reviewsText then
          let ds := (reviewsText.getD "").data.filter Char.isDigit
          if ds.isEmpty then none else some (digitsToNat ds)
        else none
      let info_texts := infoTextsOf p
      let apw := classifyInfo info_texts
      let coords := extract_coordinates_from_url p.url
      { name := name
        category := if optTruthy category then category else some (infer_category search_term)
        rating := rating
        review_count := review_count
        address := apw.1
        phone := apw.2.1
        website := apw.2.2
        raw_info_elements := info_texts
        latitude := coords.map Prod.fst
        longitude := coords.map Prod.snd
        error := none }

/-- Behaviour of one card index during the phase-2 loop: the card may no
longer exist at re-query time, the click/detail-load may fail (the item is
skipped), or a detail pane is observed. -/
inductive CardStep where
  | missing
  | fail
  | pane (p : DetailPane)

/-- Lower-cased name key used by the de-duplication check. -/
def nameKey (b : BusinessDict) : String :=
  pyLower (b.name.getD "")

/-- The `for i in range(cards_to_process)` loop of
`_extract_all_cards_sequentially`: `processed` is the set of seen lower-cased
names, `acc` the accumulated businesses. -/
def extractCardsGo (steps : Nat → CardStep) (search_term : String) :
    List Nat → List String → List BusinessDict → List BusinessDict
  | [], _, acc => acc
  | i :: rest, processed, acc =>
    match steps i with
    | .missing => extractCardsGo steps search_term rest processed acc
    | .fail => extractCardsGo steps search_term rest processed acc
    | .pane p =>
      let business := extract_from_detail_pane_precise p search_term
      if optTruthy business.name && !optTruthy business.error then
        if nameKey business ∈ processed then
          extractCardsGo steps search_term rest processed acc
        else
          extractCardsGo steps search_term rest (nameKey business :: processed)
            (acc ++ [business])
      else
        extractCardsGo steps search_term rest processed acc

/-- `OptimizedGoogleMapsScraper._extract_all_cards_sequentially`: `numCards`
is the card count found by the (re-)query; exactly
`min numCards max_results` indices are processed. -/
def extract_all_cards_sequentially (numCards : Nat) (steps : Nat → CardStep)
    (search_term : String) (max_results : Nat) : List BusinessDict :=
  extractCardsGo steps search_term (List.range (min numCards max_results)) [] []

/-- State of the auto-scroll loop in
`SmartScrollManager.auto_scroll_load_all_cards` (the in-page JavaScript),
with `prevCount`, `stableRounds` and `totalRounds` as in the source. -/
structure ScrollState where
  prevCount : Nat
  stableRounds : Nat
  totalRounds : Nat
  deriving DecidableEq

/-- The `while (stableRounds < 3 && totalRounds < 50)` loop: `counts r` is the
number of `.Nv2PK` cards the DOM shows when round `r + 1` reads it.  The loop
increments `totalRounds` on every iteration, so 50 units of fuel are exactly
enough: the fuel-exhausted branch is reached only with `totalRounds ≥ 50`,
where the guard stops the source loop as well (the lemmas below hold for
every fuel). -/
def autoScrollLoop (counts : Nat → Nat) (target : Nat) :
    Nat → ScrollState → ScrollState
  | 0, s => s
  | fuel + 1, s =>
    if s.stableRounds < 3 ∧ s.totalRounds < 50 then
      if target ≤ counts s.totalRounds then { s with totalRounds := s.totalRounds + 1 }
      else if s.prevCount < counts s.totalRounds then
        autoScrollLoop counts target fuel
          { prevCount := counts s.totalRounds, stableRounds := 0,
            totalRounds := s.totalRounds + 1 }
      else
        autoScrollLoop counts target fuel
          { s with stableRounds := s.stableRounds + 1, totalRounds := s.totalRounds + 1 }
    else s

/-- Number of scroll rounds performed by the loop from its initial state. -/
def scrollRounds (counts : Nat → Nat) (target : Nat) : Nat :=
  (autoScrollLoop counts target 50
    { prevCount := 0, stableRounds := 0, totalRounds := 0 }).totalRounds

/-- Running maximum of the first `n` observed counts; along a run `prevCount`
equals this, since it is updated exactly on growth. -/
def runMax (counts : Nat → Nat) : Nat → Nat
  | 0 => 0
  | n + 1 => max (runMax counts n) (counts n)

/-- `scrape_single_search`'s request dict: an absent `search_term` or
`area_name` defaults to `''`, `max_results` to 20, `max_retries` to 2. -/
structure ScrapeRequest where
  search_term : String
  area_name : String
  max_results : Nat
  max_retries : Nat

/-- Environment behaviour of the attempt with a given `retry_count` in
`scrape_single_search`.  `crashBefore` models an exception raised during
browser/context setup, navigation or the settle wait (before the block
check); `cards` is the auto-scroll result; `variationCards` the counts
produced by the three query variations (an in-variation exception keeps the
previous count, which is 0, so it behaves as the count 0); `phase2Count` and
`phase2` drive `_extract_all_cards_sequentially`; `phase2Crash` an exception
inside it, caught at the call site; `closeCrash` an exception from the final
`context.close()`. -/
structure AttemptSpec where
  crashBefore : Option String
  blocked : Bool
  cards : Nat
  variationCards : List Nat
  phase2Count : Nat
  phase2 : Nat → CardStep
  phase2Crash : Bool
  closeCrash : Option String

/-- The result dict of `scrape_single_search`; keys a return site does not
set are `none`. -/
structure ScrapeResult where
  success : Bool
  error : Option String := none
  businesses : List BusinessDict := []
  total_found : Option Nat := none
  cards_loaded : Option Nat := none
  search_term : Option String := none
  area_name : Option String := none
  extraction_method : Option String := none
  note : Option String := none
  retry_count : Option Nat := none
  fresh_browser : Option Bool := none
  deriving DecidableEq

/-- The extraction-method tag common to the success results. -/
def twoPhaseTag : String :=
  "Two-Phase (Scroll + Sequential Detail Extraction)"

/-- The terminal-failure return at the bottom of `scrape_single_search`
(also produced by `break` on a final-attempt exception); note the source's
`"cards_loaded": len(businesses)`. -/
def failureResult (search_term area_name : String) (last_error : Option String)
    (businesses : List BusinessDict) (retry_count : Nat) : ScrapeResult :=
  { success := false
    error := some (last_error.getD "All retry attempts failed")
    businesses := businesses
    cards_loaded := some businesses.length
    search_term := some search_term
    area_name := some area_name
    retry_count := some retry_count }

/-- The blocked-on-final-attempt return of `scrape_single_search`. -/
def blockedResult (search_term area_name : String) : ScrapeResult :=
  { success := false
    error := some "Google Maps is blocking requests"
    businesses := []
    search_term := some search_term
    area_name := some area_name
    note := some "Rate limited or detected as bot" }

/-- The zero-results-after-variations return of `scrape_single_search`. -/
def emptySuccessResult (search_term area_name : String) (retry_count : Nat) :
    ScrapeResult :=
  { success := true
    businesses := []
    total_found := some 0
    cards_loaded := some 0
    search_term := some search_term
    area_name := some area_name
    extraction_method := some twoPhaseTag
    note := some "No results found after multiple attempts and search variations"
    retry_count := some retry_count }

/-- The success return of `scrape_single_search`. -/
def successResult (search_term area_name : String)
    (businesses : List BusinessDict) (total_cards_loaded retry_count : Nat) :
    ScrapeResult :=
  { success := true
    businesses := businesses
    total_found := some businesses.length
    cards_loaded := some total_cards_loaded
    search_term := some search_term
    area_name := some area_name
    extraction_method := some twoPhaseTag
    retry_count := some retry_count
    fresh_browser := some true }

/-- Value of `total_cards_loaded` after the variation loop: each non-raising
variation assigns its count and the loop breaks on a positive one. -/
def firstPositive : List Nat → Nat
  | [] => 0
  | n :: rest => if 0 < n then n else firstPositive rest

/-- `total_cards_loaded` at the end of phase 1 of one attempt: the auto-scroll
count, or the variation-loop result when that count is zero. -/
def attemptTotal (a : AttemptSpec) : Nat :=
  if a.cards = 0 then firstPositive a.variationCards else a.cards

/-- The `while retry_count <= max_retries` loop of `scrape_single_search`.
Every iteration either returns or re-enters with `retry_count + 1` under a
`retry_count < max_retries` guard, so `max_retries + 1` units of fuel are
exactly enough; the fuel-exhausted branch is unreachable from the initial
call. -/
def scrapeLoop (world : Nat → AttemptSpec) (search_term area_name : String)
    (max_results max_retries : Nat) :
    Nat → Nat → List BusinessDict → Option String → ScrapeResult
  | 0, retry_count, businesses, last_error =>
    failureResult search_term area_name last_error businesses retry_count
  | fuel + 1, retry_count, businesses, last_error =>
    let a := world retry_count
    match a.crashBefore with
    | some msg =>
      if max_retries ≤ retry_count then
        failureResult search_term area_name (some msg) businesses retry_count
      else
        scrapeLoop world search_term area_name max_results max_retries fuel
          (retry_count + 1) businesses (some msg)
    | none =>
      if a.blocked then
        if retry_count < max_retries then
          scrapeLoop world search_term area_name max_results max_retries fuel
            (retry_count + 1) businesses last_error
        else blockedResult search_term area_name
      else
        let total_cards_loaded := attemptTotal a
        if total_cards_loaded = 0 then
          if retry_count < max_retries then
            scrapeLoop world search_term area_name max_results max_retries fuel
              (retry_count + 1) businesses last_error
          else emptySuccessResult search_term area_name retry_count
        else
          let businesses1 :=
            if a.phase2Crash then businesses
            else extract_all_cards_sequentially a.phase2Count a.phase2
              search_term max_results
          match a.closeCrash with
          | some msg =>
            if max_retries ≤ retry_count then
              failureResult search_term area_name (some msg) businesses1 retry_count
            else
              scrapeLoop world search_term area_name max_results max_retries fuel
                (retry_count + 1) businesses1 (some msg)
          | none =>
            successResult search_term area_name businesses1 total_cards_loaded
              retry_count

/-- The invalid-request result returned before any browser work. -/
def invalidInputResult : ScrapeResult :=
  { success := false
    error := some "search_term and area_name are required"
    businesses := [] }

/-- `OptimizedGoogleMapsScraper.scrape_single_search`, with the browser
environment of each attempt supplied by `world`. -/
def scrape_single_search (req : ScrapeRequest) (world : Nat → AttemptSpec) :
    ScrapeResult :=
  if req.search_term = "" ∨ req.area_name = "" then invalidInputResult
  else
    scrapeLoop world req.search_term req.area_name req.max_results
      req.max_retries (req.max_retries + 1) 0 [] none

/-! ### Lemmas about the auto-scroll loop -/

theorem autoScrollLoop_le_50 (counts : Nat → Nat) (target : Nat) :
    ∀ fuel s, s.totalRounds ≤ 50 →
      (autoScrollLoop counts target fuel s).totalRounds ≤ 50 := by
  intro fuel
  induction fuel with
  | zero => intro s h; exact h
  | succ fuel ih =>
    intro s h
    unfold autoScrollLoop
    split
    · rename_i hg
      split
      · exact hg.2
      · split
        · exact ih _ hg.2
        · exact ih _ hg.2
    · exact h

theorem autoScrollLoop_target_stop (counts : Nat → Nat) (target : Nat) :
    ∀ fuel s j, s.totalRounds ≤ j →
      j + 1 < (autoScrollLoop counts target fuel s).totalRounds →
      counts j < target := by
  intro fuel
  induction fuel with
  | zero =>
    intro s j hj hlt
    simp only [autoScrollLoop] at hlt
    omega
  | succ fuel ih =>
    intro s j hj hlt
    unfold autoScrollLoop at hlt
    split at hlt
    · rename_i hg
      split at hlt
      · have hlt2 : j + 1 < s.totalRounds + 1 := hlt
        omega
      · rename_i hnt
        rcases Nat.eq_or_lt_of_le hj with heq | hgt
        · subst heq; omega
        · split at hlt
          · exact ih { prevCount := counts s.totalRounds, stableRounds := 0,
                       totalRounds := s.totalRounds + 1 } j
              (show s.totalRounds + 1 ≤ j by omega) hlt
          · exact ih { prevCount := s.prevCount, stableRounds := s.stableRounds + 1,
                       totalRounds := s.totalRounds + 1 } j
              (show s.totalRounds + 1 ≤ j by omega) hlt
    · omega

theorem autoScrollLoop_stable_stop (counts : Nat → Nat) (target : Nat) :
    ∀ k fuel s, (∀ j, j < k → counts (s.totalRounds + j) ≤ s.prevCount) →
      3 ≤ s.stableRounds + k →
      (autoScrollLoop counts target fuel s).totalRounds ≤ s.totalRounds + k := by
  intro k
  induction k with
  | zero =>
    intro fuel s _ hst
    cases fuel with
    | zero => exact Nat.le_add_right _ _
    | succ fuel =>
      unfold autoScrollLoop
      rw [if_neg]
      · exact Nat.le_add_right _ _
      · intro hg; omega
  | succ k ih =>
    intro fuel s hcount hst
    cases fuel with
    | zero => exact Nat.le_add_right _ _
    | succ fuel =>
      have hc0 : counts s.totalRounds ≤ s.prevCount := by
        have := hcount 0 (Nat.succ_pos k)
        simpa using this
      unfold autoScrollLoop
      split
      · split
        · show s.totalRounds + 1 ≤ s.totalRounds + (k + 1)
          omega
        · split
          · rename_i hgrow
            omega
          · have hrec : (autoScrollLoop counts target fuel
                { prevCount := s.prevCount, stableRounds := s.stableRounds + 1,
                  totalRounds := s.totalRounds + 1 }).totalRounds ≤
                s.totalRounds + 1 + k := by
              refine ih fuel _ ?_ ?_
              · intro j hj
                show counts (s.totalRounds + 1 + j) ≤ s.prevCount
                have h2 := hcount (j + 1) (by omega)
                have h3 : s.totalRounds + (j + 1) = s.totalRounds + 1 + j := by omega
                rw [h3] at h2
                exact h2
              · show 3 ≤ s.stableRounds + 1 + k
                omega
            exact Nat.le_trans hrec (by omega)
      · exact Nat.le_add_right _ _

theorem runMax_succ (counts : Nat → Nat) (n : Nat) :
    runMax counts (n + 1) = max (runMax counts n) (counts n) := rfl

theorem autoScrollLoop_runMax_stop (counts : Nat → Nat) (target : Nat) (k : Nat)
    (hstab : ∀ j, j < 3 → counts (k + j) ≤ runMax counts k) :
    ∀ fuel s, s.prevCount = runMax counts s.totalRounds → s.totalRounds ≤ k →
      (autoScrollLoop counts target fuel s).totalRounds ≤ k + 3 := by
  intro fuel
  induction fuel with
  | zero =>
    intro s _ hsk
    exact Nat.le_trans hsk (Nat.le_add_right _ _)
  | succ fuel ih =>
    intro s hprev hsk
    rcases Nat.eq_or_lt_of_le hsk with heq | hlt
    · have hres := autoScrollLoop_stable_stop counts target 3 (fuel + 1) s
        (fun j hj => by rw [hprev, heq]; exact hstab j hj)
        (by omega)
      omega
    · unfold autoScrollLoop
      split
      · split
        · show s.totalRounds + 1 ≤ k + 3
          omega
        · split
          · rename_i hgrow
            refine ih _ ?_ ?_
            · show counts s.totalRounds = runMax counts (s.totalRounds + 1)
              rw [runMax_succ, ← hprev]
              exact (Nat.max_eq_right (Nat.le_of_lt hgrow)).symm
            · show s.totalRounds + 1 ≤ k
              omega
          · rename_i hng
            refine ih _ ?_ ?_
            · show s.prevCount = runMax counts (s.totalRounds + 1)
              rw [runMax_succ, ← hprev]
              exact (Nat.max_eq_left (Nat.le_of_not_lt hng)).symm
            · show s.totalRounds + 1 ≤ k
              omega
      · omega

/-- C1: the incremental-load loop of `auto_scroll_load_all_cards` always
halts: it performs at most 50 scroll rounds; every round except possibly the
final one reads an item count below the target, so no round follows the
target-reaching round; and whenever three consecutive rounds read counts that
do not exceed the running maximum of the earlier counts (no growth), the loop
stops no later than the third such round. -/
theorem C1_scroll_loop_termination (counts : Nat → Nat) (target : Nat) :
    scrollRounds counts target ≤ 50 ∧
    (∀ j, j + 1 < scrollRounds counts target → counts j < target) ∧
    (∀ k, (∀ j, j < 3 → counts (k + j) ≤ runMax counts k) →
      scrollRounds counts target ≤ k + 3) := by
  refine ⟨?_, ?_, ?_⟩
  · exact autoScrollLoop_le_50 counts target 50 _ (by simp)
  · intro j hj
    exact autoScrollLoop_target_stop counts target 50 _ j (Nat.zero_le _) hj
  · intro k hk
    exact autoScrollLoop_runMax_stop counts target k hk 50 _ rfl (Nat.zero_le _)

/-- Witness for C1: with counts growing one per round and a target of 1000 the
loop runs its full 50 rounds, so round 1's count is below target; with a
constant count of 2 the no-growth hypothesis holds from round 2 on and the
loop stops within 1 + 3 rounds. -/
theorem C1_scroll_loop_termination_witness :
    (fun n => n) 0 < 1000 ∧ scrollRounds (fun _ => 2) 5 ≤ 1 + 3 :=
  ⟨(C1_scroll_loop_termination (fun n => n) 1000).2.1 0 (by decide),
   (C1_scroll_loop_termination (fun _ => 2) 5).2.2 1 (fun j _ => by decide)⟩

/-! ### Lemmas about range validation (ratings and coordinates) -/

theorem validate_coordinates_sound (lat lng : ℚ)
    (h : validate_coordinates lat lng = true) :
    -90 ≤ lat ∧ lat ≤ 90 ∧ -180 ≤ lng ∧ lng ≤ 180 :=
  of_decide_eq_true h

theorem parse_rating_value_range (s : String) (r : ℚ)
    (h : parse_rating_value s = some r) : 0 ≤ r ∧ r ≤ 5 := by
  unfold parse_rating_value at h
  split at h
  · simp at h
  · split at h
    · split at h
      · rename_i hrange
        obtain rfl := Option.some.inj h
        exact hrange
      · simp at h
    · simp at h

theorem coordsFromAt_valid (u : String) (p : ℚ × ℚ)
    (h : coordsFromAt u = some p) : validate_coordinates p.1 p.2 = true := by
  unfold coordsFromAt at h
  split at h
  · split at h
    · rename_i hv
      obtain rfl := Option.some.inj h
      exact hv
    · simp at h
  · simp at h

theorem extract_coordinates_from_url_valid (u : String) (p : ℚ × ℚ)
    (h : extract_coordinates_from_url u = some p) :
    validate_coordinates p.1 p.2 = true := by
  unfold extract_coordinates_from_url at h
  split at h
  · split at h
    · rename_i hv
      obtain rfl := Option.some.inj h
      exact hv
    · exact coordsFromAt_valid u p h
  · exact coordsFromAt_valid u p h

theorem coordsFromLink_valid (href : String) (p : ℚ × ℚ)
    (h : coordsFromLink href = some p) : validate_coordinates p.1 p.2 = true := by
  unfold coordsFromLink at h
  split at h
  · split at h
    · split at h
      · rename_i hv
        obtain rfl := Option.some.inj h
        exact hv
      · split at h
        · split at h
          · rename_i hv
            obtain rfl := Option.some.inj h
            exact hv
          · simp at h
        · simp at h
    · split at h
      · split at h
        · rename_i hv
          obtain rfl := Option.some.inj h
          exact hv
        · simp at h
      · simp at h
  · simp at h

theorem extract_coordinates_valid :
    ∀ (links : List String) (p : ℚ × ℚ),
      extract_coordinates links = some p → validate_coordinates p.1 p.2 = true := by
  intro links
  induction links with
  | nil => intro p h; simp [extract_coordinates] at h
  | cons hd tl ih =>
    intro p h
    unfold extract_coordinates at h
    split at h
    · rename_i q hq
      obtain rfl := Option.some.inj h
      exact coordsFromLink_valid hd _ hq
    · exact ih p h

/-- A concrete detail-pane observation whose rating text parses to 9.9,
outside the documented range. -/
def paneOverRating : DetailPane :=
  { hasRoot := true
    nameRaw := some "Shop"
    categoryRaw := none
    hasRatingBlock := true
    ratingRaw := some "9.9"
    reviewsRaw := none
    infoRaw := []
    url := "" }

theorem extract_pane_latlng (p : DetailPane) (st : String) :
    ((extract_from_detail_pane_precise p st).latitude =
        (extract_coordinates_from_url p.url).map Prod.fst ∧
      (extract_from_detail_pane_precise p st).longitude =
        (extract_coordinates_from_url p.url).map Prod.snd) ∨
    ((extract_from_detail_pane_precise p st).latitude = none ∧
      (extract_from_detail_pane_precise p st).longitude = none) := by
  simp only [extract_from_detail_pane_precise]
  split
  · right; exact ⟨rfl, rfl⟩
  · split
    · right; exact ⟨rfl, rfl⟩
    · left; exact ⟨rfl, rfl⟩

/-- C2 (amended): ratings parsed through `_parse_rating_value` are accepted
only in `[0, 5]`, and coordinates are accepted on every path only after
`_validate_coordinates`, so accepted coordinates satisfy the latitude and
longitude bounds; out-of-range parses yield `None`, never a clamped value.
However, on the detail-pane path of `_extract_from_detail_pane_precise` the
rating is `float(rating_text)` with no range check, so an out-of-range parsed
rating is passed through into the record. -/
theorem C2_range_validation :
    (∀ s r, parse_rating_value s = some r → 0 ≤ r ∧ r ≤ 5) ∧
    (∀ u la ln, extract_coordinates_from_url u = some (la, ln) →
      -90 ≤ la ∧ la ≤ 90 ∧ -180 ≤ ln ∧ ln ≤ 180) ∧
    (∀ links la ln, extract_coordinates links = some (la, ln) →
      -90 ≤ la ∧ la ≤ 90 ∧ -180 ≤ ln ∧ ln ≤ 180) ∧
    (∀ p st la ln,
      (extract_from_detail_pane_precise p st).latitude = some la →
      (extract_from_detail_pane_precise p st).longitude = some ln →
      -90 ≤ la ∧ la ≤ 90 ∧ -180 ≤ ln ∧ ln ≤ 180) ∧
    (∃ p st r, (extract_from_detail_pane_precise p st).rating = some r ∧ 5 < r) := by
  refine ⟨parse_rating_value_range, ?_, ?_, ?_, ?_⟩
  · intro u la ln h
    exact validate_coordinates_sound la ln
      (extract_coordinates_from_url_valid u (la, ln) h)
  · intro links la ln h
    exact validate_coordinates_sound la ln
      (extract_coordinates_valid links (la, ln) h)
  · intro p st la ln hla hln
    rcases extract_pane_latlng p st with ⟨h1, h2⟩ | ⟨h1, h2⟩
    · rw [h1] at hla
      rw [h2] at hln
      cases hc : extract_coordinates_from_url p.url with
      | none => rw [hc] at hla; simp at hla
      | some q =>
        rw [hc] at hla hln
        have h1q : some q.1 = some la := hla
        have h2q : some q.2 = some ln := hln
        obtain rfl := Option.some.inj h1q
        obtain rfl := Option.some.inj h2q
        exact validate_coordinates_sound q.1 q.2
          (extract_coordinates_from_url_valid p.url q hc)
    · rw [h1] at hla; simp at hla
  · exact ⟨paneOverRating, "shop", mkRat 99 10, (by decide), (by decide)⟩

/-- Witness for C2: applying the rating-range part at the concrete parse of
`"4.5"`. -/
theorem C2_range_validation_witness :
    (0 : ℚ) ≤ mkRat 9 2 ∧ mkRat 9 2 ≤ 5 :=
  C2_range_validation.1 "4.5" (mkRat 9 2) (by decide)

/-- Counterexample to C2 as stated: on the detail-pane extraction path a
rating text of `"9.9"` is accepted into the record unchanged, although it is
outside `[0, 5]` — the range check is absent on that path. -/
theorem C2_counterexample :
    (extract_from_detail_pane_precise paneOverRating "shop").rating
      = some (mkRat 99 10) ∧
    ¬ (mkRat 99 10 ≤ 5) :=
  ⟨(by decide), (by decide)⟩

/-! ### Lemmas about the phase-2 extraction loop and the required fields -/

theorem inferGo_ne_empty :
    ∀ (l : List (String × String)) (s : String),
      (∀ kv ∈ l, kv.2 ≠ "") → inferGo l s ≠ "" := by
  intro l
  induction l with
  | nil => intro s _; simp [inferGo]
  | cons kv rest ih =>
    intro s h
    unfold inferGo
    split
    · exact h kv (List.mem_cons_self _ _)
    · exact ih s (fun kv2 h2 => h kv2 (List.mem_cons_of_mem _ h2))

theorem infer_category_ne_empty (st : String) : infer_category st ≠ "" :=
  inferGo_ne_empty category_mappings (pyLower st) (by decide)

theorem extract_pane_name_or_category (p : DetailPane) (st : String) :
    optTruthy (extract_from_detail_pane_precise p st).name = false ∨
    optTruthy (extract_from_detail_pane_precise p st).category = true := by
  simp only [extract_from_detail_pane_precise]
  split
  · left; rfl
  · split
    · left; rfl
    · right
      split
      · rename_i hcat; exact hcat
      · simp only [optTruthy, bne_iff_ne, ne_eq, decide_eq_true_eq]
        exact infer_category_ne_empty st

theorem extractCardsGo_pairwise (steps : Nat → CardStep) (st : String) :
    ∀ idxs processed acc,
      (∀ b ∈ acc, nameKey b ∈ processed) →
      acc.Pairwise (fun a b => nameKey a ≠ nameKey b) →
      (extractCardsGo steps st idxs processed acc).Pairwise
        (fun a b => nameKey a ≠ nameKey b) := by
  intro idxs
  induction idxs with
  | nil => intro processed acc _ hpw; exact hpw
  | cons i rest ih =>
    intro processed acc hmem hpw
    simp only [extractCardsGo]
    split
    · exact ih processed acc hmem hpw
    · exact ih processed acc hmem hpw
    · split
      · split
        · exact ih processed acc hmem hpw
        · rename_i hpass hnotmem
          refine ih _ _ ?_ ?_
          · intro b hb
            rcases List.mem_append.mp hb with hb | hb
            · exact List.mem_cons_of_mem _ (hmem b hb)
            · rw [List.mem_singleton] at hb
              subst hb
              exact List.mem_cons_self _ _
          · rw [List.pairwise_append]
            refine ⟨hpw, List.pairwise_singleton _ _, ?_⟩
            intro a ha b hb
            rw [List.mem_singleton] at hb
            subst hb
            intro hkey
            exact hnotmem (hkey ▸ hmem a ha)
      · exact ih processed acc hmem hpw

theorem extractCardsGo_fields (steps : Nat → CardStep) (st : String) :
    ∀ idxs processed acc,
      (∀ b ∈ acc, optTruthy b.name = true ∧ optTruthy b.category = true) →
      ∀ b ∈ extractCardsGo steps st idxs processed acc,
        optTruthy b.name = true ∧ optTruthy b.category = true := by
  intro idxs
  induction idxs with
  | nil => intro processed acc hacc; exact hacc
  | cons i rest ih =>
    intro processed acc hacc
    simp only [extractCardsGo]
    split
    · exact ih processed acc hacc
    · exact ih processed acc hacc
    · rename_i p hp
      split
      · split
        · exact ih processed acc hacc
        · rename_i hpass hnotmem
          refine ih _ _ ?_
          intro b hb
          rcases List.mem_append.mp hb with hb | hb
          · exact hacc b hb
          · rw [List.mem_singleton] at hb
            subst hb
            rw [Bool.and_eq_true] at hpass
            have hname := hpass.1
            refine ⟨hname, ?_⟩
            rcases extract_pane_name_or_category p st with hf | ht
            · rw [hname] at hf; cases hf
            · exact ht
      · exact ih processed acc hacc

theorem extractCardsGo_length (steps : Nat → CardStep) (st : String) :
    ∀ idxs processed acc,
      (extractCardsGo steps st idxs processed acc).length ≤
        acc.length + idxs.length := by
  intro idxs
  induction idxs with
  | nil => intro processed acc; simp [extractCardsGo]
  | cons i rest ih =>
    intro processed acc
    have hstep : acc.length + rest.length ≤ acc.length + (i :: rest).length := by
      simp only [List.length_cons]
      omega
    simp only [extractCardsGo]
    split
    · exact Nat.le_trans (ih processed acc) hstep
    · exact Nat.le_trans (ih processed acc) hstep
    · split
      · split
        · exact Nat.le_trans (ih processed acc) hstep
        · refine Nat.le_trans (ih _ _) ?_
          simp only [List.length_append, List.length_cons, List.length_nil]
          omega
      · exact Nat.le_trans (ih processed acc) hstep

/-! ### Invariant of the retry driver over the accumulated businesses -/

theorem scrapeLoop_businesses_prop (world : Nat → AttemptSpec)
    (st area : String) (mx mr : Nat) (Q : List BusinessDict → Prop)
    (hnil : Q [])
    (hext : ∀ n steps, Q (extract_all_cards_sequentially n steps st mx)) :
    ∀ fuel rc bs le, Q bs →
      Q (scrapeLoop world st area mx mr fuel rc bs le).businesses := by
  intro fuel
  induction fuel with
  | zero => intro rc bs le hbs; exact hbs
  | succ fuel ih =>
    intro rc bs le hbs
    have hb1 : Q (if (world rc).phase2Crash = true then bs
        else extract_all_cards_sequentially (world rc).phase2Count
          (world rc).phase2 st mx) := by
      split
      · exact hbs
      · exact hext _ _
    simp only [scrapeLoop]
    split
    · -- crashBefore = some msg
      split
      · exact hbs
      · exact ih _ _ _ hbs
    · -- crashBefore = none
      split
      · -- blocked
        split
        · exact ih _ _ _ hbs
        · exact hnil
      · split
        · -- zero cards
          split
          · exact ih _ _ _ hbs
          · exact hnil
        · -- phase 2 ran
          split
          · -- closeCrash = some
            split
            · exact hb1
            · exact ih _ _ _ hb1
          · exact hb1

theorem scrape_businesses_prop (req : ScrapeRequest) (world : Nat → AttemptSpec)
    (Q : List BusinessDict → Prop) (hnil : Q [])
    (hext : ∀ n steps,
      Q (extract_all_cards_sequentially n steps req.search_term req.max_results)) :
    Q (scrape_single_search req world).businesses := by
  unfold scrape_single_search
  split
  · exact hnil
  · exact scrapeLoop_businesses_prop world _ _ _ _ Q hnil hext _ _ _ _ hnil

/-- C3: within one run no two appended business records share the same
lower-cased name — the phase-2 loop skips a record whose lower-cased name was
already appended, so both the raw extraction list and the `businesses`
sequence of every returned result are pairwise distinct on the lower-cased
name key. -/
theorem C3_dedup_by_lowercased_name :
    (∀ numCards steps st maxr,
      (extract_all_cards_sequentially numCards steps st maxr).Pairwise
        (fun a b => nameKey a ≠ nameKey b)) ∧
    (∀ req world,
      (scrape_single_search req world).businesses.Pairwise
        (fun a b => nameKey a ≠ nameKey b)) := by
  constructor
  · intro numCards steps st maxr
    exact extractCardsGo_pairwise steps st _ [] [] (by simp) (by simp)
  · intro req world
    exact scrape_businesses_prop req world _ (by simp)
      (fun n steps => extractCardsGo_pairwise steps _ _ [] [] (by simp) (by simp))

/-- Witness for C3: the de-duplication property evaluated on a concrete
two-card run in which both cards show the same pane. -/
theorem C3_dedup_by_lowercased_name_witness :
    (extract_all_cards_sequentially 2 (fun _ => .pane paneOverRating) "shop" 5).Pairwise
      (fun a b => nameKey a ≠ nameKey b) :=
  C3_dedup_by_lowercased_name.1 2 (fun _ => .pane paneOverRating) "shop" 5

/-- C4: every business record in the output has a truthy (non-empty) name —
records without an extractable name are never appended — and a truthy
category, falling back to the inferred or default category; this holds for
the raw extraction list and for the `businesses` of every returned result. -/
theorem C4_required_fields :
    (∀ numCards steps st maxr b,
      b ∈ extract_all_cards_sequentially numCards steps st maxr →
      optTruthy b.name = true ∧ optTruthy b.category = true) ∧
    (∀ req world b,
      b ∈ (scrape_single_search req world).businesses →
      optTruthy b.name = true ∧ optTruthy b.category = true) := by
  constructor
  · intro numCards steps st maxr
    exact extractCardsGo_fields steps st _ [] [] (by simp)
  · intro req world
    exact scrape_businesses_prop req world
      (fun l => ∀ b ∈ l, optTruthy b.name = true ∧ optTruthy b.category = true)
      (by simp)
      (fun n steps => extractCardsGo_fields steps _ _ [] [] (by simp))

/-- The record extracted from `paneOverRating` under the search term
`"pharmacy"` (category inferred, since the pane exposes none). -/
def bWitness : BusinessDict :=
  { name := some "Shop", category := some "Pharmacy", rating := some (mkRat 99 10) }

/-- Witness for C4: the required-field property applied to the concrete
record produced by a one-card run. -/
theorem C4_required_fields_witness :
    optTruthy bWitness.name = true ∧ optTruthy bWitness.category = true :=
  C4_required_fields.1 1 (fun _ => .pane paneOverRating) "pharmacy" 5 bWitness
    (by decide)

/-- C9: the businesses sequence of any returned result has length at most
`max_results`: the phase-2 loop processes at most
`min numCards max_results` cards and each card appends at most one record. -/
theorem C9_results_bounded_by_max_results :
    (∀ numCards steps st maxr,
      (extract_all_cards_sequentially numCards steps st maxr).length ≤
        min numCards maxr) ∧
    (∀ req world,
      (scrape_single_search req world).businesses.length ≤ req.max_results) := by
  have hpart1 : ∀ (numCards : Nat) (steps : Nat → CardStep) (st : String)
      (maxr : Nat),
      (extract_all_cards_sequentially numCards steps st maxr).length ≤
        min numCards maxr := by
    intro numCards steps st maxr
    have h := extractCardsGo_length steps st (List.range (min numCards maxr)) [] []
    simpa [extract_all_cards_sequentially] using h
  refine ⟨hpart1, ?_⟩
  intro req world
  refine scrape_businesses_prop req world
    (fun l => l.length ≤ req.max_results) (by simp) ?_
  intro n steps
  exact Nat.le_trans (hpart1 n steps req.search_term req.max_results)
    (Nat.min_le_right _ _)

/-! ### Driver scenarios: zero results, persistent blocking, input validation -/

/-- An attempt that completes its setup, is not blocked, and loads zero cards
on the main query and on every variation. -/
def goodEmptyAttempt (a : AttemptSpec) : Prop :=
  a.crashBefore = none ∧ a.blocked = false ∧ a.cards = 0 ∧
    firstPositive a.variationCards = 0

/-- An attempt whose block check fires. -/
def blockedAttempt (a : AttemptSpec) : Prop :=
  a.crashBefore = none ∧ a.blocked = true

/-- An attempt that loads cards and extracts, but whose final
`context.close()` raises `msg`. -/
def closeCrashAttempt (msg : String) (a : AttemptSpec) : Prop :=
  a.crashBefore = none ∧ a.blocked = false ∧ a.cards ≠ 0 ∧
    a.phase2Crash = false ∧ a.closeCrash = some msg

theorem scrapeLoop_all_empty (world : Nat → AttemptSpec) (st area : String)
    (mx mr : Nat) :
    ∀ fuel rc bs le, (∀ i, rc ≤ i → i ≤ mr → goodEmptyAttempt (world i)) →
      fuel = mr + 1 - rc → rc ≤ mr →
      scrapeLoop world st area mx mr fuel rc bs le =
        emptySuccessResult st area mr := by
  intro fuel
  induction fuel with
  | zero => intro rc bs le _ hfuel hrc; omega
  | succ fuel ih =>
    intro rc bs le hall hfuel hrc
    obtain ⟨hcb, hbl, hcards, hvar⟩ := hall rc (Nat.le_refl rc) hrc
    simp only [scrapeLoop]
    rw [hcb]
    simp [hbl, attemptTotal, hcards, hvar]
    split
    · exact ih (rc + 1) bs le (fun i h1 h2 => hall i (by omega) h2)
        (by omega) (by omega)
    · rename_i hrm
      have heq : rc = mr := by omega
      rw [heq]

theorem scrapeLoop_all_blocked (world : Nat → AttemptSpec) (st area : String)
    (mx mr : Nat) :
    ∀ fuel rc bs le, (∀ i, rc ≤ i → i ≤ mr → blockedAttempt (world i)) →
      fuel = mr + 1 - rc → rc ≤ mr →
      scrapeLoop world st area mx mr fuel rc bs le = blockedResult st area := by
  intro fuel
  induction fuel with
  | zero => intro rc bs le _ hfuel hrc; omega
  | succ fuel ih =>
    intro rc bs le hall hfuel hrc
    obtain ⟨hcb, hbl⟩ := hall rc (Nat.le_refl rc) hrc
    simp only [scrapeLoop]
    rw [hcb]
    simp [hbl]
    intro hrm
    exact ih (rc + 1) bs le (fun i h1 h2 => hall i (by omega) h2)
      (by omega) (by omega)

theorem scrapeLoop_all_closeCrash (world : Nat → AttemptSpec)
    (st area : String) (mx mr : Nat) (msg : String) :
    ∀ fuel rc bs le, (∀ i, rc ≤ i → i ≤ mr → closeCrashAttempt msg (world i)) →
      fuel = mr + 1 - rc → rc ≤ mr →
      scrapeLoop world st area mx mr fuel rc bs le =
        failureResult st area (some msg)
          (extract_all_cards_sequentially (world mr).phase2Count
            (world mr).phase2 st mx) mr := by
  intro fuel
  induction fuel with
  | zero => intro rc bs le _ hfuel hrc; omega
  | succ fuel ih =>
    intro rc bs le hall hfuel hrc
    obtain ⟨hcb, hbl, hcards, hp2, hcc⟩ := hall rc (Nat.le_refl rc) hrc
    simp only [scrapeLoop]
    rw [hcb]
    simp [hbl, attemptTotal, hcards, hp2, hcc]
    split
    · rename_i hrm
      have heq : rc = mr := by omega
      rw [heq]
    · rename_i hrm
      exact ih (rc + 1) _ _ (fun i h1 h2 => hall i (by omega) h2)
        (by omega) (by omega)

/-- C5: if every attempt completes unblocked but loads zero items even after
the three query-string variations, then once retries are exhausted
`scrape_single_search` returns a successful-empty result: `success` is true,
`businesses` is empty, `total_found` is 0 and no error key is set. -/
theorem C5_zero_results_successful_empty (req : ScrapeRequest)
    (world : Nat → AttemptSpec)
    (hst : req.search_term ≠ "") (har : req.area_name ≠ "")
    (hall : ∀ i, i ≤ req.max_retries → goodEmptyAttempt (world i)) :
    (scrape_single_search req world).success = true ∧
    (scrape_single_search req world).businesses = [] ∧
    (scrape_single_search req world).total_found = some 0 ∧
    (scrape_single_search req world).error = none ∧
    (scrape_single_search req world).retry_count = some req.max_retries := by
  have hmain : scrape_single_search req world =
      emptySuccessResult req.search_term req.area_name req.max_retries := by
    unfold scrape_single_search
    rw [if_neg (fun h => h.elim hst har)]
    exact scrapeLoop_all_empty world req.search_term req.area_name
      req.max_results req.max_retries (req.max_retries + 1) 0 [] none
      (fun i _ h2 => hall i h2) (by omega) (Nat.zero_le _)
  rw [hmain]
  exact ⟨rfl, rfl, rfl, rfl, rfl⟩

/-- A request with both fields present. -/
def reqW : ScrapeRequest :=
  { search_term := "restaurant", area_name := "Lahore",
    max_results := 5, max_retries := 2 }

/-- A world in which every attempt is unblocked but yields zero cards. -/
def emptyWorldW : Nat → AttemptSpec := fun _ =>
  { crashBefore := none, blocked := false, cards := 0,
    variationCards := [0, 0, 0], phase2Count := 0,
    phase2 := fun _ => CardStep.missing, phase2Crash := false,
    closeCrash := none }

/-- Witness for C5 at a concrete request and world. -/
theorem C5_zero_results_successful_empty_witness :
    (scrape_single_search reqW emptyWorldW).success = true ∧
    (scrape_single_search reqW emptyWorldW).businesses = [] ∧
    (scrape_single_search reqW emptyWorldW).total_found = some 0 ∧
    (scrape_single_search reqW emptyWorldW).error = none ∧
    (scrape_single_search reqW emptyWorldW).retry_count = some reqW.max_retries :=
  C5_zero_results_successful_empty reqW emptyWorldW (by decide) (by decide)
    (fun i _ => ⟨rfl, rfl, rfl, rfl⟩)

/-- C6 (amended): when the block check fires on every attempt,
`scrape_single_search` ends after `max_retries + 1` attempts with `success`
false, the error string `"Google Maps is blocking requests"` and an empty
businesses list — but this blocked terminal result carries no `retry_count`
key (and a hard-coded empty businesses list).  The exception-path terminal
failure does report the accumulated partial businesses, the retry count
attempted and the error string. -/
theorem C6_terminal_failure_reporting (req : ScrapeRequest)
    (world : Nat → AttemptSpec)
    (hst : req.search_term ≠ "") (har : req.area_name ≠ "") :
    ((∀ i, i ≤ req.max_retries → blockedAttempt (world i)) →
      (scrape_single_search req world).success = false ∧
      (scrape_single_search req world).error =
        some "Google Maps is blocking requests" ∧
      (scrape_single_search req world).businesses = [] ∧
      (scrape_single_search req world).retry_count = none) ∧
    (∀ msg, (∀ i, i ≤ req.max_retries → closeCrashAttempt msg (world i)) →
      (scrape_single_search req world).success = false ∧
      (scrape_single_search req world).error = some msg ∧
      (scrape_single_search req world).businesses =
        extract_all_cards_sequentially (world req.max_retries).phase2Count
          (world req.max_retries).phase2 req.search_term req.max_results ∧
      (scrape_single_search req world).retry_count = some req.max_retries) := by
  constructor
  · intro hall
    have hmain : scrape_single_search req world =
        blockedResult req.search_term req.area_name := by
      unfold scrape_single_search
      rw [if_neg (fun h => h.elim hst har)]
      exact scrapeLoop_all_blocked world req.search_term req.area_name
        req.max_results req.max_retries (req.max_retries + 1) 0 [] none
        (fun i _ h2 => hall i h2) (by omega) (Nat.zero_le _)
    rw [hmain]
    exact ⟨rfl, rfl, rfl, rfl⟩
  · intro msg hall
    have hmain : scrape_single_search req world =
        failureResult req.search_term req.area_name (some msg)
          (extract_all_cards_sequentially (world req.max_retries).phase2Count
            (world req.max_retries).phase2 req.search_term req.max_results)
          req.max_retries := by
      unfold scrape_single_search
      rw [if_neg (fun h => h.elim hst har)]
      exact scrapeLoop_all_closeCrash world req.search_term req.area_name
        req.max_results req.max_retries msg (req.max_retries + 1) 0 [] none
        (fun i _ h2 => hall i h2) (by omega) (Nat.zero_le _)
    rw [hmain]
    exact ⟨rfl, rfl, rfl, rfl⟩

/-- A world in which every attempt's block check fires. -/
def blockedWorldW : Nat → AttemptSpec := fun _ =>
  { crashBefore := none, blocked := true, cards := 0,
    variationCards := [0, 0, 0], phase2Count := 0,
    phase2 := fun _ => CardStep.missing, phase2Crash := false,
    closeCrash := none }

/-- Witness for C6 at a concrete request and a persistently blocked world. -/
theorem C6_terminal_failure_reporting_witness :
    (scrape_single_search reqW blockedWorldW).success = false ∧
    (scrape_single_search reqW blockedWorldW).error =
      some "Google Maps is blocking requests" ∧
    (scrape_single_search reqW blockedWorldW).businesses = [] ∧
    (scrape_single_search reqW blockedWorldW).retry_count = none :=
  (C6_terminal_failure_reporting reqW blockedWorldW (by decide) (by decide)).1
    (fun i _ => ⟨rfl, rfl⟩)

/-- Counterexample to C6 as stated: the blocked terminal failure result does
not report the retry count attempted — its `retry_count` key is absent — so
not every terminal failure reports the retry count. -/
theorem C6_counterexample :
    (scrape_single_search reqW blockedWorldW).success = false ∧
    (scrape_single_search reqW blockedWorldW).error =
      some "Google Maps is blocking requests" ∧
    (scrape_single_search reqW blockedWorldW).retry_count = none :=
  ⟨(by decide), (by decide), (by decide)⟩

/-- C10: a request with a missing or empty `search_term` or `area_name`
returns immediately with `success` false, the error string
`"search_term and area_name are required"` and an empty businesses list, and
the result does not depend on the browser environment (no session work
happens). -/
theorem C10_missing_input_validation (req : ScrapeRequest)
    (world : Nat → AttemptSpec)
    (h : req.search_term = "" ∨ req.area_name = "") :
    scrape_single_search req world = invalidInputResult ∧
    (scrape_single_search req world).success = false ∧
    (scrape_single_search req world).error =
      some "search_term and area_name are required" ∧
    (scrape_single_search req world).businesses = [] ∧
    (∀ world2, scrape_single_search req world2 = scrape_single_search req world) := by
  have hmain : ∀ w : Nat → AttemptSpec,
      scrape_single_search req w = invalidInputResult := by
    intro w
    unfold scrape_single_search
    rw [if_pos h]
  refine ⟨hmain world, ?_, ?_, ?_, fun w2 => (hmain w2).trans (hmain world).symm⟩
  · rw [hmain world]; rfl
  · rw [hmain world]; rfl
  · rw [hmain world]; rfl

/-- A request whose search term is empty. -/
def reqNoTerm : ScrapeRequest :=
  { search_term := "", area_name := "Lahore", max_results := 20, max_retries := 2 }

/-- Witness for C10 at a concrete empty-search-term request. -/
theorem C10_missing_input_validation_witness :
    scrape_single_search reqNoTerm emptyWorldW = invalidInputResult :=
  (C10_missing_input_validation reqNoTerm emptyWorldW (Or.inl rfl)).1

/-! ### Phone validation and rejection -/

theorem is_valid_phone_short (t : String)
    (h : (cleanPhone t).length < 10) : is_valid_phone t = false := by
  simp only [is_valid_phone]
  split
  · rfl
  · split
    · exact decide_eq_false (by omega)
    · split
      · exact decide_eq_false (by omega)
      · split
        · exact decide_eq_false (by omega)
        · split
          · exact decide_eq_false (by omega)
          · exact decide_eq_false (fun hc => by omega)

/-- A phone element none of whose candidate strings passes
`_is_valid_phone`. -/
def phoneElemRejected (e : PhoneElem) : Prop :=
  (∀ h, e.href = some h → is_valid_phone (strDrop h 4) = false) ∧
  (∀ t, e.text = some t → is_valid_phone t = false)

theorem phoneFromElem_none (fmt : String → Option String) (e : PhoneElem)
    (hrej : phoneElemRejected e) : phoneFromElem fmt e = none := by
  simp only [phoneFromElem]
  cases he : e.href with
  | none =>
    cases ht : e.text with
    | none => rfl
    | some t => simp [hrej.2 t ht]
  | some h =>
    simp only [hrej.1 h he, Bool.and_false, Bool.false_eq_true, if_false]
    cases ht : e.text with
    | none => rfl
    | some t => simp [hrej.2 t ht]

theorem firstPhone_none (fmt : String → Option String) :
    ∀ l, (∀ e ∈ l, phoneElemRejected e) → firstPhone fmt l = none := by
  intro l
  induction l with
  | nil => intro _; rfl
  | cons e rest ih =>
    intro h
    unfold firstPhone
    rw [phoneFromElem_none fmt e (h e (List.mem_cons_self _ _))]
    exact ih (fun e2 h2 => h e2 (List.mem_cons_of_mem _ h2))

theorem extract_detail_phone_empty (fmt : String → Option String) :
    ∀ groups, (∀ g ∈ groups, ∀ e ∈ g, phoneElemRejected e) →
      extract_detail_phone fmt groups = "" := by
  intro groups
  induction groups with
  | nil => intro _; rfl
  | cons g rest ih =>
    intro h
    unfold extract_detail_phone
    rw [firstPhone_none fmt g (h g (List.mem_cons_self _ _))]
    exact ih (fun g2 h2 => h g2 (List.mem_cons_of_mem _ h2))

theorem classifyFold_phone_none :
    ∀ (texts : List String) (acc : Option String × Option String × Option String),
      (∀ t ∈ texts, ¬(strStartsWith t "+" = true ∧ hasDigitStr t = true)) →
      acc.2.1 = none → (List.foldl classifyStep acc texts).2.1 = none := by
  intro texts
  induction texts with
  | nil => intro acc _ h; exact h
  | cons t rest ih =>
    intro acc hall hacc
    simp only [List.foldl_cons]
    refine ih _ (fun u hu => hall u (List.mem_cons_of_mem _ hu)) ?_
    unfold classifyStep
    split
    · exact hacc
    · split
      · rename_i hcond
        exfalso
        simp only [Bool.and_eq_true] at hcond
        exact hall t (List.mem_cons_self _ _) ⟨hcond.1.2, hcond.2⟩
      · split
        · exact hacc
        · exact hacc

theorem extract_pane_phone_none (p : DetailPane) (st : String)
    (hall : ∀ t ∈ infoTextsOf p,
      ¬(strStartsWith t "+" = true ∧ hasDigitStr t = true)) :
    (extract_from_detail_pane_precise p st).phone = none := by
  simp only [extract_from_detail_pane_precise]
  split
  · rfl
  · split
    · rfl
    · exact classifyFold_phone_none (infoTextsOf p) (none, none, none) hall rfl

/-- C7 (amended): every candidate whose cleaned digits-and-plus form is
shorter than 10 fails every regional heuristic of `_is_valid_phone`, so when
all of a pane's phone candidates fail validation `_extract_detail_phone`
leaves the phone empty; and on the detail-pane-precise path a text is taken
as the phone only when it starts with `+` and contains a digit, so when no
info text does, the record's phone is `None` while the record is still
produced.  (The detail-pane path itself performs no digit-count validation —
see the counterexample.) -/
theorem C7_short_phone_rejected :
    (∀ t, (cleanPhone t).length < 10 → is_valid_phone t = false) ∧
    (∀ fmt groups, (∀ g ∈ groups, ∀ e ∈ g, phoneElemRejected e) →
      extract_detail_phone fmt groups = "") ∧
    (∀ p st, (∀ t ∈ infoTextsOf p,
        ¬(strStartsWith t "+" = true ∧ hasDigitStr t = true)) →
      (extract_from_detail_pane_precise p st).phone = none) :=
  ⟨is_valid_phone_short, extract_detail_phone_empty, extract_pane_phone_none⟩

/-- Witness for C7: the candidate `"+1"` (one digit) is rejected by the
validator. -/
theorem C7_short_phone_rejected_witness : is_valid_phone "+1" = false :=
  C7_short_phone_rejected.1 "+1" (by decide)

/-- A detail pane whose only info text is the one-digit fragment `"+1"`. -/
def panePlusOne : DetailPane :=
  { hasRoot := true, nameRaw := some "Shop", categoryRaw := none,
    hasRatingBlock := false, ratingRaw := none, reviewsRaw := none,
    infoRaw := [some "+1"], url := "" }

/-- Counterexample to C7 as stated: on the detail-pane extraction path the
info text `"+1"` — below every regional heuristic's minimum digit count, and
rejected by `_is_valid_phone` — is nevertheless stored as the record's phone,
because that path only checks for a leading `+` and some digit. -/
theorem C7_counterexample :
    (extract_from_detail_pane_precise panePlusOne "shop").phone = some "+1" ∧
    is_valid_phone "+1" = false ∧
    (extract_from_detail_pane_precise panePlusOne "shop").error = none :=
  ⟨(by decide), (by decide), (by decide)⟩

/-! ### Category inference -/

theorem extract_pane_category_inferred (p : DetailPane) (st : String)
    (hroot : p.hasRoot = true)
    (hname : optTruthy (safe_extract_text p.nameRaw) = true)
    (hcat : optTruthy (safe_extract_text p.categoryRaw) = false) :
    (extract_from_detail_pane_precise p st).category = some (infer_category st) := by
  simp [extract_from_detail_pane_precise, hroot, hname, hcat]

theorem inferGo_no_match :
    ∀ (l : List (String × String)) (s : String),
      (∀ kv ∈ l, strIn kv.1 s = false) → inferGo l s = "Business" := by
  intro l
  induction l with
  | nil => intro s _; rfl
  | cons kv rest ih =>
    intro s h
    unfold inferGo
    rw [if_neg]
    · exact ih s (fun kv2 h2 => h kv2 (List.mem_cons_of_mem _ h2))
    · intro hc
      rw [h kv (List.mem_cons_self _ _)] at hc
      exact Bool.false_ne_true hc

/-- C8: when an item exposes no category text the record's category is
inferred from the search term by the first case-insensitive keyword-substring
match of the static mapping; with no matching keyword it defaults to
`"Business"`, and for the search term `"pharmacy"` the inferred category is
`"Pharmacy"`. -/
theorem C8_category_inference :
    infer_category "pharmacy" = "Pharmacy" ∧
    (∀ p st, p.hasRoot = true →
      optTruthy (safe_extract_text p.nameRaw) = true →
      optTruthy (safe_extract_text p.categoryRaw) = false →
      (extract_from_detail_pane_precise p st).category =
        some (infer_category st)) ∧
    (∀ st, (∀ kv ∈ category_mappings, strIn kv.1 (pyLower st) = false) →
      infer_category st = "Business") := by
  refine ⟨(by decide), extract_pane_category_inferred, ?_⟩
  intro st h
  exact inferGo_no_match category_mappings (pyLower st) h

/-- Witness for C8: a search term matching no keyword falls back to
`"Business"`. -/
theorem C8_category_inference_witness : infer_category "xyz" = "Business" :=
  C8_category_inference.2.2 "xyz" (by decide)

end GmScraper

